import Mathlib

/-!
Verification development for the SuccessFactors → BigQuery ingestion pipeline
(`ingest.py`, `bigquery_sq_utils.py`, `ssff_utils.py`).

The pipeline's synthesis core is deterministic string templating driven by a
normalized entity descriptor parsed from an OData `$metadata` document.  This
file gives a shallow embedding of that core: Python string operations are
modelled by executable Lean functions on `String`/`List Char`, Python `dict`
projections by structures, dynamic single-vs-list XML shapes by inductives,
and raised exceptions by `Except PyErr`.  External collaborators (HTTP, the
BigQuery client, object storage, `sqlparse.format` pretty-printing) are not
modelled; the functions below produce exactly the SQL strings the source
hands to those collaborators.
-/

namespace SSFF

/-! ## Python string primitives -/

/-- model of Python `sep.join(parts)`. -/
def pyJoin (sep : String) : List String → String
  | [] => ""
  | [x] => x
  | x :: y :: xs => x ++ sep ++ pyJoin sep (y :: xs)

/-- auxiliary scanner for `pyFind`: index of the first position of `l` at which
`pat` is a prefix, or `-1`. -/
def pyFindAux (pat : List Char) (i : Nat) : List Char → Int
  | [] => if pat.isPrefixOf [] then (i : Int) else -1
  | c :: cs => if pat.isPrefixOf (c :: cs) then (i : Int) else pyFindAux pat (i + 1) cs

/-- model of Python `s.find(pat)`: lowest index where `pat` occurs, else `-1`. -/
def pyFind (s pat : String) : Int :=
  pyFindAux pat.data 0 s.data

/-- model of Python slicing `s[i:j]` with possibly negative bounds:
negative indices count from the end, out-of-range bounds clamp. -/
def pySliceList (l : List Char) (i j : Int) : List Char :=
  let n : Int := l.length
  let st := (if i < 0 then n + i else i).toNat
  let en := (if j < 0 then n + j else j).toNat
  (l.take en).drop st

/-- model of Python `s[i:j]`. -/
def pySlice (s : String) (i j : Int) : String :=
  ⟨pySliceList s.data i j⟩

/-- model of Python `str.lower()` (ASCII case folding, which is all the
source's module tags use). -/
def pyLower (s : String) : String :=
  ⟨s.data.map Char.toLower⟩

/-- whitespace characters stripped by Python `str.strip()` / `int(...)`. -/
def pyIsSpace (c : Char) : Bool :=
  c = ' ' || c = '\t' || c = '\n' || c = '\r' || c = '\x0b' || c = '\x0c'

/-- model of Python `str.strip()` on character lists. -/
def pyStripList (l : List Char) : List Char :=
  ((l.dropWhile pyIsSpace).reverse.dropWhile pyIsSpace).reverse

/-- model of Python `str.strip()`. -/
def pyStrip (s : String) : String :=
  ⟨pyStripList s.data⟩

/-- single-pattern substitution with explicit fuel, modelling
`template.format(...)` for a template that mentions one placeholder.
Fuel is instantiated with the template length, which suffices because every
step consumes at least one template character. -/
def pySubstAux (pat rep : List Char) : Nat → List Char → List Char
  | 0, _ => []
  | _ + 1, [] => []
  | n + 1, c :: cs =>
    if pat.isPrefixOf (c :: cs) then
      rep ++ pySubstAux pat rep n ((c :: cs).drop pat.length)
    else
      c :: pySubstAux pat rep n cs

/-- model of Python `tmpl.replace(pat, rep)` /
single-placeholder `tmpl.format(...)`. -/
def pySubst (tmpl pat rep : String) : String :=
  ⟨pySubstAux pat.data rep.data tmpl.data.length tmpl.data⟩

/-! ## Exceptions

Python control flow that raises is modelled with `Except PyErr`.  The
constructors record which concrete exception the interpreter would raise. -/

/-- Python exceptions raised by the modelled code paths. -/
inductive PyErr where
  /-- a `raise Exception(msg)` statement. -/
  | exception (msg : String)
  /-- an `IndexError` from subscripting an empty list. -/
  | indexError
  /-- a `TypeError` from concatenating `None` into a string. -/
  | typeError
  /-- an `UnboundLocalError` for reading a local variable never assigned. -/
  | unboundLocalError (var : String)
  deriving DecidableEq

/-! ## `ingest.py` — static type tables -/

/-- embedding of `ingest.py` lines 22–41: the `data_type_mapping` dict from
OData primitive type names to BigQuery column types.  Python `dict.get`
returns `None` for a missing key, hence the `Option` codomain. -/
def data_type_mapping : String → Option String
  | "Edm.Binary" => some "BYTES"
  | "Edm.Boolean" => some "BOOL"
  | "Edm.DateTime" => some "DATETIME"
  | "Edm.Time" => some "TIMESTAMP"
  | "Edm.Int64" => some "INTEGER"
  | "Edm.Decimal" => some "DECIMAL"
  | "Edm.Double" => some "FLOAT64"
  | "Edm.Float" => some "FLOAT64"
  | "Edm.Single" => some "FLOAT64"
  | "Edm.Int32" => some "INTEGER"
  | "Edm.Byte" => some "INTEGER"
  | "Edm.Int16" => some "INTEGER"
  | "Edm.SByte" => some "INTEGER"
  | "Edm.DateTimeOffset" => some "TIMESTAMP"
  | "Edm.Guid" => some "STRING"
  | "Edm.String" => some "STRING"
  | _ => none

/-- embedding of `ingest.py` lines 43–49: the `data_type_conversion_mapping`
dict of per-type SELECT-expression templates, keyed by BigQuery column type.
The template strings are kept verbatim (placeholder `{field_name}` included);
`conv_formatted` below inlines `template.format(field_name=...)`. -/
def data_type_conversion_mapping : String → Option String
  | "STRING" => some "{field_name}"
  | "DATETIME" => some "EXTRACT(DATETIME FROM TIMESTAMP_MILLIS(CAST(REGEXP_EXTRACT({field_name}, r\"/Date\\((-?\\d+)\\)\") AS INT64))) AS {field_name}"
  | "TIMESTAMP" => some "TIMESTAMP_MILLIS(CAST(REGEXP_EXTRACT({field_name}, r\"/Date\\(([-+]?\\d+)\\+0000\\)/\") AS INT64)) AS {field_name}"
  | "FLOAT" => some "CAST({field_name} AS FLOAT64) AS {field_name}"
  | "BYTES" => some "SELECT CAST(cast(REGEXP_EXTRACT({field_name}, r\"[X|binary]\x27([A-Fa-f0-9][A-Fa-f0-9]*)\x27\") AS BYTES) AS STRING)"
  | _ => none

/-! ## `ingest.py` — `get_entity_count` -/

/-- digit-run parser for `pyIntParse`: accumulates decimal digits, allowing
single underscores between digits (as Python `int(...)` does). -/
def pyParseDigits (acc : Nat) : List Char → Option Nat
  | [] => some acc
  | ['_'] => none
  | '_' :: '_' :: _ => none
  | '_' :: c :: cs =>
    if c.isDigit then pyParseDigits (acc * 10 + (c.toNat - 48)) cs else none
  | c :: cs =>
    if c.isDigit then pyParseDigits (acc * 10 + (c.toNat - 48)) cs else none

/-- leading-digit check before delegating to `pyParseDigits`: a digit run may
not start with an underscore. -/
def pyParseDigitRun : List Char → Option Nat
  | [] => none
  | c :: cs => if c.isDigit then pyParseDigits (c.toNat - 48) cs else none

/-- model of Python `int(text)` on a decimal string: surrounding whitespace is
stripped, an optional sign precedes a non-empty digit run (underscore
separators permitted between digits); anything else raises `ValueError`,
modelled as `none`. -/
def pyIntParse (s : String) : Option Int :=
  match pyStripList s.data with
  | '+' :: rest => (pyParseDigitRun rest).map Int.ofNat
  | '-' :: rest => (pyParseDigitRun rest).map (fun n => -(n : Int))
  | rest => (pyParseDigitRun rest).map Int.ofNat

/-- embedding of `ingest.py` lines 52–67, `get_entity_count`, as a function of
the count-endpoint response body.  The `try` block binds `count = int(...)`;
on a parse failure the `except` clause only logs, so the trailing
`return count` reads a never-assigned local and raises `UnboundLocalError`. -/
def get_entity_count (body : String) : Except PyErr Int :=
  match pyIntParse body with
  | some count => .ok count
  | none => .error (.unboundLocalError "count")

/-! ## `ingest.py` — metadata document model and `process_metadata`

The `$metadata` XML is parsed upstream by `xmltodict`; `process_metadata` only
projects a fixed set of paths out of the resulting nested dicts.  The
structures below model exactly those projections.  Where `xmltodict` may
produce either a single node or a list of nodes (`Key/PropertyRef`,
`sap:tagcollection/sap:tag`), the dynamic shape is modelled by an inductive. -/

/-- one `PropertyRef` node, carrying its `@Name` attribute. -/
structure PropertyRefNode where
  name : String
  deriving DecidableEq

/-- the value at `EntityType.Key.PropertyRef`: `xmltodict` yields a single
dict when the XML has one key property and a list of dicts when it has
several (`ingest.py` line 109 tests `isinstance(..., Dict)`). -/
inductive PropertyRefValue where
  | dict (pr : PropertyRefNode)
  | list (prs : List PropertyRefNode)
  deriving DecidableEq

/-- the value at `Documentation['sap:tagcollection']['sap:tag']`: a list of
strings, a single string, or anything else (`ingest.py` lines 125–131). -/
inductive TagValue where
  | strs (l : List String)
  | str (s : String)
  | other
  deriving DecidableEq

/-- one `Property` node of the EntityType, with the attributes read by
`process_metadata`: `@Name`, `@Type`, `@Nullable`, `@sap:visible`,
`@sap:label` and the optional `@sap:picklist`. -/
structure PropertyNode where
  name : String
  type : String
  nullable : String
  visible : String
  label : String
  picklist : Option String
  deriving DecidableEq

/-- the projections of the parsed `$metadata` document that
`process_metadata` reads: `Schema[1].EntityType.@Name`,
`Schema[0].EntityContainer.EntitySet.Documentation.LongDescription`, the tag
collection, the key `PropertyRef` value and the `Property` list. -/
structure MetadataDoc where
  entityName : String
  longDescription : String
  tags : TagValue
  propertyRef : PropertyRefValue
  properties : List PropertyNode
  deriving DecidableEq

/-- one entry of the normalized descriptor's `fields` list (`ingest.py`
lines 115–122).  `type` is `Option` because `data_type_mapping.get` silently
returns `None` on an unmapped source type. -/
structure EntityField where
  name : String
  type : Option String
  mode : String
  description : String
  deriving DecidableEq

/-- the normalized entity descriptor returned by `process_metadata`
(`ingest.py` lines 133–139). -/
structure EntityDict where
  name : String
  keys : List String
  fields : List EntityField
  module : String
  description : String
  deriving DecidableEq

/-- embedding of `ingest.py` lines 88–94, `get_columns_description`.  Python
truthiness of `field.get('@sap:picklist', False)`: a missing key or an empty
string both take the label-only branch. -/
def get_columns_description (field : PropertyNode) : String :=
  match field.picklist with
  | some p => if p = "" then field.label ++ "." else field.label ++ ". PickList: " ++ p ++ "."
  | none => field.label ++ "."

/-- the `keys` projection of `process_metadata` (`ingest.py` lines 109–112):
a single `PropertyRef` dict yields a one-element list, a list of refs yields
their `@Name`s in order. -/
def extract_keys : PropertyRefValue → List String
  | .dict pr => [pr.name]
  | .list prs => prs.map (·.name)

/-- the `fields` projection of `process_metadata` (`ingest.py` lines
115–122): visible properties, keeping order, with the mapped type, the
`NOT NULL` mode for non-nullable fields, and the column description. -/
def extract_fields (properties : List PropertyNode) : List EntityField :=
  (properties.filter (fun field => field.visible == "true")).map fun field =>
    { name := field.name
      type := data_type_mapping field.type
      mode := if field.nullable == "true" then "" else "NOT NULL"
      description := get_columns_description field }

/-- the module projection of `process_metadata` (`ingest.py` lines 124–131):
a list takes its first element (an empty list raises `IndexError` at
`tags[0]`), a string is taken as-is, anything else raises the generic
`Exception` on line 131. -/
def extract_module : TagValue → Except PyErr String
  | .strs [] => .error .indexError
  | .strs (m :: _) => .ok m
  | .str s => .ok s
  | .other => .error (.exception "Could not extract SSFF module name from the metadata")

/-- embedding of `ingest.py` lines 97–141, `process_metadata`: builds the
normalized entity descriptor from the parsed metadata document.  Only the
module extraction can raise. -/
def process_metadata (metadata : MetadataDoc) : Except PyErr EntityDict :=
  match extract_module metadata.tags with
  | .error e => .error e
  | .ok module =>
    .ok { name := metadata.entityName
          keys := extract_keys metadata.propertyRef
          fields := extract_fields metadata.properties
          module := module
          description := metadata.longDescription }

/-! ## `ingest.py` — pagination (`get_next_page_url`, `get_entity_data`) -/

/-- the `d` envelope of one OData data page: the `results` payload (rows are
opaque here — `store_data` writes them out verbatim) and the optional
`__next` continuation URL. -/
structure ODataPage where
  results : List String
  next : Option String
  deriving DecidableEq

/-- embedding of `ingest.py` lines 144–150, `get_next_page_url`: `None` when
the envelope has no `__next` key, otherwise the continuation URL. -/
def get_next_page_url (page : ODataPage) : Option String :=
  page.next

/-- embedding of the `while next_page is not None` loop of `ingest.py` lines
182–192 (`get_entity_data`): the k-th request of the loop returns the k-th
element of `pages` (the remote pages in fetch order) and each page's
`results` is handed to `store_data` before the `__next` check decides whether
to continue.  The function returns the stored payloads in request order; an
exhausted `pages` list means the remote kept promising a next page that never
materialises, on which the loop would keep requesting. -/
def get_entity_data_stored : List ODataPage → List (List String)
  | [] => []
  | page :: rest =>
    page.results ::
      match get_next_page_url page with
      | none => []
      | some _ => get_entity_data_stored rest

/-! ## `bigquery_sq_utils.py` — `create_merge_query`

`create_merge_query` (lines 10–57) fills the `base_query` template and then
runs it through `sqlparse.format(..., reindent=True, keyword_case='upper')`.
The `sqlparse` pass is an external pretty-printer (spec §4.5: formatting is
cosmetic, not load-bearing) and is not modelled; the definitions below
produce the filled template handed to it. -/

/-- the `column_names` list of `create_merge_query` (line 38). -/
def merge_column_names (metadata : EntityDict) : List String :=
  metadata.fields.map (·.name)

/-- the `ON` join condition of `create_merge_query` (line 41):
`source.<key>=target.<key>` joined with `' AND '`, keys in declared order. -/
def merge_condition (metadata : EntityDict) : String :=
  pyJoin " AND " (metadata.keys.map fun key => "source." ++ key ++ "=target." ++ key)

/-- the entries of the `WHEN MATCHED ... UPDATE SET` list of
`create_merge_query` (line 42), before joining with `', '`. -/
def merge_update_set_entries (metadata : EntityDict) : List String :=
  (merge_column_names metadata).map fun column => "target." ++ column ++ "=source." ++ column

/-- embedding of `bigquery_sq_utils.py` lines 10–52: the `base_query`
template of `create_merge_query` with `{rf_table_id}`, `{raw_table_id}`,
`{columns}`, `{condition}` and `{column_mapping}` filled in
(`str.format` inlined as concatenation). -/
def create_merge_query (metadata : EntityDict) (raw_table_id rf_table_id : String) : String :=
  let columns := pyJoin ", " (merge_column_names metadata)
  let condition := merge_condition metadata
  let mapping := pyJoin ", " (merge_update_set_entries metadata)
  "\n    MERGE INTO\n    " ++ rf_table_id ++ " AS target\n    USING(\n    SELECT\n    "
    ++ columns ++ "\n    FROM " ++ raw_table_id
    ++ "\n    WHERE TIMESTAMP_TRUNC(_PARTITIONTIME, DAY) = TIMESTAMP(FORMAT_DATE(\"%Y-%m-%d\",CURRENT_DATE()))\n    ) AS source\n    ON "
    ++ condition ++ "\n    WHEN MATCHED\n    THEN UPDATE\n    SET\n    "
    ++ mapping ++ "\n    WHEN NOT MATCHED BY TARGET\n    THEN INSERT(\n    "
    ++ columns ++ "\n    )\n    VALUES(\n    "
    ++ columns ++ "\n    );\n    "

/-! ## DDL synthesis (`create_bq_final_table`, `create_bq_refined_table`,
`create_bq_raw_table`)

Each of these source functions mixes SQL synthesis with BigQuery client
calls; only the synthesis is modelled.  The `project` strings come from the
`PROJECT_ID` / `RF_PROJECT_ID` environment variables. -/

/-- the `dataset_module` computation shared by the table builders
(`module[module.find("(")+1 : module.find(")")].lower().strip()`). -/
def dataset_module_of (module : String) : String :=
  pyStrip (pyLower (pySlice module (pyFind module "(" + 1) (pyFind module ")")))

/-- the dataset id `f'{project}.ds_sfsf_{dataset_module}'`. -/
def dataset_id_of (project : String) (module : String) : String :=
  project ++ ".ds_sfsf_" ++ dataset_module_of module

/-- one column definition of the final/refined DDL (`ingest.py` line 228,
`bigquery_sq_utils.py` line 93): name, type, mode and an
`OPTIONS(description='...')` clause.  A field whose type mapping was missing
holds Python `None`, and `field['name'] + " " + field['type']` then raises
`TypeError`. -/
def field_column_sql (field : EntityField) : Except PyErr String :=
  match field.type with
  | some t =>
    .ok (field.name ++ " " ++ t ++ " " ++ field.mode ++ " "
      ++ "OPTIONS(description=\x27" ++ field.description ++ "\x27)")
  | none => .error .typeError

/-- embedding of `ingest.py` lines 203–240, `create_bq_final_table`: the DDL
for the typed final table, partitioned by ingestion day and clustered by the
declared keys. -/
def create_bq_final_table_ddl (project : String) (metadata : EntityDict) :
    Except PyErr String :=
  match metadata.fields.mapM field_column_sql with
  | .error e => .error e
  | .ok cols =>
  let table_id := dataset_id_of project metadata.module ++ "." ++ metadata.name
  .ok ("\n        CREATE TABLE IF NOT EXISTS " ++ table_id ++ "(\n            "
    ++ pyJoin "," cols
    ++ "\n        )\n        PARTITION BY DATE_TRUNC(_PARTITIONTIME, DAY)\n        CLUSTER BY "
    ++ pyJoin "," metadata.keys
    ++ "\n        OPTIONS (\n            description=\x27" ++ metadata.description
    ++ "\x27\n        );\n    ")

/-- embedding of `bigquery_sq_utils.py` lines 68–104,
`create_bq_refined_table`: the DDL for the refined merge-target table,
clustered by the declared keys, with no partition clause. -/
def create_bq_refined_table_ddl (project : String) (metadata : EntityDict) :
    Except PyErr String :=
  match metadata.fields.mapM field_column_sql with
  | .error e => .error e
  | .ok cols =>
  let table_id := dataset_id_of project metadata.module ++ "." ++ metadata.name
  .ok ("\n        CREATE TABLE IF NOT EXISTS " ++ table_id ++ "(\n            "
    ++ pyJoin "," cols
    ++ "\n        )\n        CLUSTER BY "
    ++ pyJoin "," metadata.keys
    ++ "\n        OPTIONS (\n            description=\x27" ++ metadata.description
    ++ "\x27\n        );\n    ")

/-- the in-place field widening of `create_bq_raw_table` (`ingest.py` lines
250–252): `field.update({'type': 'STRING'})` for every field whose type is
not `'BOOL'` — including fields whose type is `None`, since
`None != 'BOOL'`.  The loop mutates the descriptor's own field dicts, so this
function is the descriptor's post-state, not a copy. -/
def create_bq_raw_table_update (metadata : EntityDict) : EntityDict :=
  { metadata with
    fields := metadata.fields.map fun field =>
      if field.type ≠ some "BOOL" then { field with type := some "STRING" } else field }

/-- one column definition of the raw/staging DDL (`ingest.py` line 263). -/
def raw_column_sql (field : EntityField) : Except PyErr String :=
  match field.type with
  | some t => .ok (field.name ++ " " ++ t)
  | none => .error .typeError

/-- embedding of `ingest.py` lines 243–270, `create_bq_raw_table`: the DDL of
the staging table `temp_<entity>` over the widened fields (no mode, no
descriptions, no partitioning, no clustering). -/
def create_bq_raw_table_ddl (project : String) (metadata : EntityDict) :
    Except PyErr String :=
  let widened := create_bq_raw_table_update metadata
  match widened.fields.mapM raw_column_sql with
  | .error e => .error e
  | .ok cols =>
  let table_id := dataset_id_of project widened.module ++ ".temp_" ++ widened.name
  .ok ("\n        CREATE TABLE IF NOT EXISTS " ++ table_id ++ "(\n            "
    ++ pyJoin "," cols ++ "\n        );\n    ")

/-! ## `ingest.py` — `insert_raw_into_final_bq`

The source fetches both table schemas through the BigQuery client; here the
two schemas are inputs.  `field_mapping` is a dict comprehension over the
final (formatted) schema, so on duplicate names the later entry wins. -/

/-- one schema field as returned by the BigQuery client: `field.name` and
`field.field_type`. -/
structure SchemaField where
  name : String
  field_type : String
  deriving DecidableEq

/-- Python dict built from a list of key/value pairs (later pairs override
earlier ones) and read with `dict.get`. -/
def pyDictGet (pairs : List (String × String)) (key : String) : Option String :=
  pairs.reverse.lookup key

/-- the `field_mapping` dict of `insert_raw_into_final_bq` (lines 370–372):
column name → `field_type` over the final table's schema. -/
def field_mapping_get (formatted_schema : List SchemaField) (key : String) : Option String :=
  pyDictGet (formatted_schema.map fun field => (field.name, field.field_type)) key

/-- the `default_conversion_expr` template of line 374, kept verbatim. -/
def default_conversion_expr : String :=
  "CAST({field_name} AS {default_type}) AS {field_name}"

/-- one SELECT expression of `insert_raw_into_final_bq` (lines 376–388),
before the `'\t'` prefix: look the column's final type up in
`data_type_conversion_mapping` and fill the matching template; on `KeyError`
(a type with no template — including the `None` left by an unmapped source
type, rendered by `str.format` as the text `None`) fall back to
`default_conversion_expr`.  Each branch is the corresponding template with
`.format(field_name=...)` inlined; `conv_subst_check` below validates the
inlining against `pySubst` on the verbatim templates. -/
def select_expr (formatted_schema : List SchemaField) (name : String) : String :=
  match field_mapping_get formatted_schema name with
  | some "STRING" => name
  | some "DATETIME" =>
    "EXTRACT(DATETIME FROM TIMESTAMP_MILLIS(CAST(REGEXP_EXTRACT(" ++ name
      ++ ", r\"/Date\\((-?\\d+)\\)\") AS INT64))) AS " ++ name
  | some "TIMESTAMP" =>
    "TIMESTAMP_MILLIS(CAST(REGEXP_EXTRACT(" ++ name
      ++ ", r\"/Date\\(([-+]?\\d+)\\+0000\\)/\") AS INT64)) AS " ++ name
  | some "FLOAT" => "CAST(" ++ name ++ " AS FLOAT64) AS " ++ name
  | some "BYTES" =>
    "SELECT CAST(cast(REGEXP_EXTRACT(" ++ name
      ++ ", r\"[X|binary]\x27([A-Fa-f0-9][A-Fa-f0-9]*)\x27\") AS BYTES) AS STRING)"
  | some t => "CAST(" ++ name ++ " AS " ++ t ++ ") AS " ++ name
  | none => "CAST(" ++ name ++ " AS None) AS " ++ name

/-- the `select_lines` list of `insert_raw_into_final_bq` (lines 376–392):
one `'\t'`-prefixed expression appended per raw-schema column, in schema
order. -/
def select_lines (formatted_schema raw_schema : List SchemaField) : List String :=
  raw_schema.map fun field => "\t" ++ select_expr formatted_schema field.name

/-- embedding of `ingest.py` lines 349–400, `insert_raw_into_final_bq`: the
filled `base_query` INSERT…SELECT statement.  `target_table`/`source_table`
are the string renderings of the two table references. -/
def insert_raw_into_final_query (target_table source_table : String)
    (formatted_schema raw_schema : List SchemaField) : String :=
  "\n    INSERT INTO " ++ target_table ++ "(\n    "
    ++ pyJoin ",\n" (raw_schema.map (·.name))
    ++ "\n    )\n    SELECT\n    "
    ++ pyJoin ",\n" (select_lines formatted_schema raw_schema)
    ++ "\n    FROM " ++ source_table ++ ";\n    "

/-! ## Verbatim templates

The source keeps two SQL templates as plain strings and fills them with
`str.format`.  The synthesis functions above inline that interpolation as
concatenation; the templates are kept verbatim here and `pySubst`-based
validation theorems below confirm the inlining on concrete inputs. -/

/-- the `base_query` template of `create_merge_query`
(`bigquery_sq_utils.py` lines 15–36), verbatim. -/
def merge_base_query : String :=
  "\n    MERGE INTO\n    {rf_table_id} AS target\n    USING(\n    SELECT\n    {columns}\n    FROM {raw_table_id}\n    WHERE TIMESTAMP_TRUNC(_PARTITIONTIME, DAY) = TIMESTAMP(FORMAT_DATE(\"%Y-%m-%d\",CURRENT_DATE()))\n    ) AS source\n    ON {condition}\n    WHEN MATCHED\n    THEN UPDATE\n    SET\n    {column_mapping}\n    WHEN NOT MATCHED BY TARGET\n    THEN INSERT(\n    {columns}\n    )\n    VALUES(\n    {columns}\n    );\n    "

/-- the `base_query` template of `insert_raw_into_final_bq` (`ingest.py`
lines 354–361), verbatim. -/
def insert_base_query : String :=
  "\n    INSERT INTO {target_table}(\n    {target_columns}\n    )\n    SELECT\n    {select_statement}\n    FROM {source_table};\n    "

/-! ## Spec-side definitions

These follow the wording of the specification, to be compared with the
definitions above that were translated from the source. -/

/-- spec §4.5 / §8: the join condition as the spec words it — the
AND-conjunction of `source.<key>=target.<key>` over every declared key field
in order. -/
def join_cond_spec : List String → String
  | [] => ""
  | [key] => "source." ++ key ++ "=target." ++ key
  | key :: key' :: rest =>
    "source." ++ key ++ "=target." ++ key ++ " AND " ++ join_cond_spec (key' :: rest)

/-- spec §4.5: the insert column list as the spec words it — all declared
column names, comma-separated, in order. -/
def insert_cols_spec : List String → String
  | [] => ""
  | [column] => column
  | column :: column' :: rest => column ++ ", " ++ insert_cols_spec (column' :: rest)

/-- spec §4.4 contract: an expression is aliased back to a column's own name
when it is the bare column reference (whose result column takes that name)
or explicitly ends in `AS <name>`. -/
def aliased_to_self (expr name : String) : Bool :=
  expr == name || (" AS " ++ name).data.isSuffixOf expr.data

/-- absence of the SQL keyword `PARTITION` from a string.  A partition clause
necessarily contains this token, so a DDL statement without it has no
partition clause. -/
def no_partition_token (s : String) : Prop :=
  ¬ ("PARTITION".data <:+: s.data)

instance (s : String) : Decidable (no_partition_token s) := by
  unfold no_partition_token
  infer_instance

/-- `no_partition_token` lifted to an optional string (a field's possibly
missing type). -/
def no_partition_opt : Option String → Prop
  | some t => no_partition_token t
  | none => True

instance (o : Option String) : Decidable (no_partition_opt o) :=
  match o with
  | some t => inferInstanceAs (Decidable (no_partition_token t))
  | none => .isTrue trivial

/-- a descriptor (plus project id) none of whose embedded strings smuggles
the token `PARTITION` into the synthesized DDL.  The source embeds
descriptor text verbatim (spec §9 records the lack of sanitization), so some
such hygiene hypothesis is needed to speak about the synthesizer's own
output. -/
def clean_descriptor (project : String) (metadata : EntityDict) : Prop :=
  no_partition_token project ∧
  no_partition_token metadata.name ∧
  no_partition_token metadata.description ∧
  (∀ key ∈ metadata.keys, no_partition_token key) ∧
  (∀ field ∈ metadata.fields,
    no_partition_token field.name ∧
    no_partition_token field.mode ∧
    no_partition_token field.description ∧
    no_partition_opt field.type)

instance (project : String) (metadata : EntityDict) :
    Decidable (clean_descriptor project metadata) := by
  unfold clean_descriptor
  infer_instance

/-! ## Concrete sample inputs for the claim-level theorems -/

/-- descriptor with key `id` also among the fields, for the merge-update
claim. -/
def mdC1 : EntityDict :=
  { name := "EmpJob"
    keys := ["id"]
    fields := [{ name := "id", type := some "STRING", mode := "NOT NULL", description := "Id." },
               { name := "val", type := some "STRING", mode := "", description := "Val." }]
    module := "Employment Information (EC)"
    description := "Jobs" }

/-- metadata document containing a property with the unsupported source type
`Edm.Stream`. -/
def docC2 : MetadataDoc :=
  { entityName := "Position"
    longDescription := "Positions"
    tags := .str "Employee Central (EC)"
    propertyRef := .dict { name := "code" }
    properties :=
      [{ name := "code", type := "Edm.String", nullable := "false", visible := "true",
         label := "Code", picklist := none },
       { name := "payload", type := "Edm.Stream", nullable := "true", visible := "true",
         label := "Payload", picklist := none }] }

/-- final-table schema that types column `b` as BYTES. -/
def fmtC3 : List SchemaField :=
  [{ name := "b", field_type := "BYTES" }, { name := "n", field_type := "INTEGER" },
   { name := "s", field_type := "STRING" }]

/-- raw-table schema over the same column names as `fmtC3`. -/
def rawC3 : List SchemaField :=
  [{ name := "b", field_type := "STRING" }, { name := "n", field_type := "STRING" },
   { name := "s", field_type := "STRING" }]

/-- metadata document whose `Key` has a list of two `PropertyRef` nodes. -/
def docC4 : MetadataDoc :=
  { entityName := "EmpJob"
    longDescription := "Jobs"
    tags := .strs ["Employee Central (EC)", "HR"]
    propertyRef := .list [{ name := "personIdExternal" }, { name := "seqNumber" }]
    properties :=
      [{ name := "personIdExternal", type := "Edm.String", nullable := "false",
         visible := "true", label := "Person", picklist := none }] }

/-- metadata document whose `Key` has one single `PropertyRef` dict. -/
def docC4single : MetadataDoc :=
  { entityName := "Position"
    longDescription := "Positions"
    tags := .str "Employee Central (EC)"
    propertyRef := .dict { name := "code" }
    properties := [] }

/-- fallback descriptor used to project an `Except` result totally. -/
def emptyEntity : EntityDict :=
  { name := "", keys := [], fields := [], module := "", description := "" }

/-- the descriptor parsed from `docC4` (total projection). -/
def entC4 : EntityDict :=
  match process_metadata docC4 with
  | .ok d => d
  | .error _ => emptyEntity

/-- the descriptor parsed from `docC4single` (total projection). -/
def entC4single : EntityDict :=
  match process_metadata docC4single with
  | .ok d => d
  | .error _ => emptyEntity

/-- clean concrete descriptor for the DDL-shape claim. -/
def mdC5 : EntityDict :=
  { name := "EmpJob"
    keys := ["personIdExternal", "seqNumber"]
    fields := [{ name := "personIdExternal", type := some "STRING", mode := "NOT NULL",
                 description := "Person." },
               { name := "isActive", type := some "BOOL", mode := "",
                 description := "Active. PickList: yesNo." }]
    module := "Employment Information (EC)"
    description := "Job information" }

/-- the final-table DDL synthesized for `mdC5` (total projection of the
`Except`, for a binder-free witness statement). -/
def c5_final_str : String :=
  match create_bq_final_table_ddl "pj" mdC5 with
  | .ok s => s
  | .error _ => ""

/-- the refined-table DDL synthesized for `mdC5`. -/
def c5_refined_str : String :=
  match create_bq_refined_table_ddl "rf-pj" mdC5 with
  | .ok s => s
  | .error _ => ""

/-- metadata document whose tag collection is a non-empty list. -/
def docC6list : MetadataDoc :=
  { entityName := "E", longDescription := "D", tags := .strs ["Platform (PLT)", "Core"],
    propertyRef := .dict { name := "k" }, properties := [] }

/-- metadata document whose tag collection is neither list nor string. -/
def docC6other : MetadataDoc :=
  { entityName := "E", longDescription := "D", tags := .other,
    propertyRef := .dict { name := "k" }, properties := [] }

/-- descriptor with the two-part key of the merge-synthesis claim. -/
def mdC7 : EntityDict :=
  { name := "EmpJob"
    keys := ["id", "effectiveDate"]
    fields := [{ name := "id", type := some "STRING", mode := "NOT NULL", description := "Id." },
               { name := "effectiveDate", type := some "DATETIME", mode := "NOT NULL",
                 description := "Date." },
               { name := "salary", type := some "DECIMAL", mode := "", description := "Pay." }]
    module := "Employee Central (EC)"
    description := "Jobs" }

/-- descriptor holding a DATETIME field, which the staging-table synthesis
widens in place. -/
def mdC8 : EntityDict :=
  { name := "EmpJob"
    keys := ["personIdExternal"]
    fields := [{ name := "personIdExternal", type := some "STRING", mode := "NOT NULL",
                 description := "Person." },
               { name := "lastModifiedDateTime", type := some "DATETIME", mode := "",
                 description := "Modified." },
               { name := "isActive", type := some "BOOL", mode := "", description := "Active." }]
    module := "Employee Central (EC)"
    description := "Jobs" }

/-- three remote pages: the third has no `__next`, and a fourth page behind a
stale link must never be requested. -/
def pagesC9 : List ODataPage :=
  [{ results := ["r0a", "r0b"], next := some "u1" },
   { results := ["r1a"], next := some "u2" },
   { results := ["r2a", "r2b"], next := none },
   { results := ["never"], next := none }]

/-! ## General lemmas about the string primitives -/

theorem pyJoin_cons (sep x : String) (l : List String) (h : l ≠ []) :
    pyJoin sep (x :: l) = x ++ sep ++ pyJoin sep l := by
  cases l with
  | nil => exact absurd rfl h
  | cons y ys => rfl

theorem isInfix_append_cases {α : Type} {p l₁ l₂ : List α} (h : p <:+: l₁ ++ l₂) :
    p <:+: l₁ ∨ p <:+: l₂ ∨
      ∃ s₁ s₂, s₁ ++ s₂ = p ∧ s₁ ≠ [] ∧ s₂ ≠ [] ∧ s₁ <:+ l₁ ∧ s₂ <+: l₂ := by
  obtain ⟨a, b, hab⟩ := h
  rw [List.append_assoc] at hab
  rcases List.append_eq_append_iff.1 hab with ⟨t, ht₁, ht₂⟩ | ⟨c, _, hc₂⟩
  · rcases List.append_eq_append_iff.1 ht₂ with ⟨u, hu₁, _⟩ | ⟨v, hv₁, hv₂⟩
    · exact Or.inl ⟨a, u, by rw [ht₁, hu₁, List.append_assoc]⟩
    · by_cases hT : t = []
      · subst hT
        simp only [List.nil_append] at hv₁
        exact Or.inr (Or.inl ⟨[], b, by simp [← hv₁, hv₂]⟩)
      · by_cases hV : v = []
        · subst hV
          rw [List.append_nil] at hv₁
          exact Or.inl ⟨a, [], by simp [ht₁, ← hv₁]⟩
        · exact Or.inr (Or.inr ⟨t, v, hv₁.symm, hT, hV, ⟨a, ht₁.symm⟩, ⟨b, hv₂.symm⟩⟩)
  · exact Or.inr (Or.inl ⟨c, b, by rw [hc₂, List.append_assoc]⟩)

theorem not_isInfix_of_disjoint {p l : List Char} (hne : p ≠ []) (h : ∀ c ∈ p, c ∉ l) :
    ¬ p <:+: l := by
  intro hp
  cases p with
  | nil => exact hne rfl
  | cons c cs => exact h c (List.mem_cons_self c cs) (hp.sublist.subset (List.mem_cons_self c cs))

theorem not_isInfix_append_lastChar {p l₁ l₂ : List Char}
    (h₁ : ¬ p <:+: l₁) (h₂ : ¬ p <:+: l₂)
    (hb : ∀ c, l₁.getLast? = some c → c ∉ p) : ¬ p <:+: l₁ ++ l₂ := by
  intro h
  rcases isInfix_append_cases h with h | h | ⟨s₁, s₂, hp, hs₁, _, hsuf, _⟩
  · exact h₁ h
  · exact h₂ h
  · obtain ⟨u, hu⟩ := hsuf
    have hlast : l₁.getLast? = some (s₁.getLast hs₁) := by
      rw [← hu, List.getLast?_append, List.getLast?_eq_getLast s₁ hs₁]
      rfl
    exact hb _ hlast (hp ▸ (List.IsPrefix.sublist ⟨s₂, rfl⟩).subset (List.getLast_mem hs₁))

theorem not_isInfix_append_headChar {p l₁ l₂ : List Char}
    (h₁ : ¬ p <:+: l₁) (h₂ : ¬ p <:+: l₂)
    (hb : ∀ c, l₂.head? = some c → c ∉ p) : ¬ p <:+: l₁ ++ l₂ := by
  intro h
  rcases isInfix_append_cases h with h | h | ⟨s₁, s₂, hp, _, hs₂, _, hpre⟩
  · exact h₁ h
  · exact h₂ h
  · obtain ⟨u, hu⟩ := hpre
    have hhead : l₂.head? = some (s₂.head hs₂) := by
      rw [← hu, List.head?_append_of_ne_nil _ hs₂, List.head?_eq_head]
    exact hb _ hhead (hp ▸ (List.IsSuffix.sublist ⟨s₁, rfl⟩).subset (List.head_mem hs₂))

theorem noOcc_app_last {p : List Char} {a b : String}
    (ha : ¬ p <:+: a.data) (hb : ¬ p <:+: b.data)
    (hc : ∀ c, a.data.getLast? = some c → c ∉ p) : ¬ p <:+: (a ++ b).data := by
  rw [String.data_append]
  exact not_isInfix_append_lastChar ha hb hc

theorem noOcc_app_head {p : List Char} {a b : String}
    (ha : ¬ p <:+: a.data) (hb : ¬ p <:+: b.data)
    (hc : ∀ c, b.data.head? = some c → c ∉ p) : ¬ p <:+: (a ++ b).data := by
  rw [String.data_append]
  exact not_isInfix_append_headChar ha hb hc

theorem headData_app (a b : String) (h : a.data ≠ []) :
    (a ++ b).data.head? = a.data.head? := by
  rw [String.data_append]
  exact List.head?_append_of_ne_nil _ h

theorem lastData_app (a b : String) (h : b.data ≠ []) :
    (a ++ b).data.getLast? = b.data.getLast? := by
  rw [String.data_append, List.getLast?_append, List.getLast?_eq_getLast b.data h]
  rfl

theorem isInfix_app_left {α : Type} {p a : List α} (h : p <:+: a) (b : List α) :
    p <:+: a ++ b := by
  obtain ⟨s, t, hst⟩ := h
  exact ⟨s, t ++ b, by rw [← hst]; simp [List.append_assoc]⟩

theorem isInfix_app_right {α : Type} {p b : List α} (a : List α) (h : p <:+: b) :
    p <:+: a ++ b := by
  obtain ⟨s, t, hst⟩ := h
  exact ⟨a ++ s, t, by rw [← hst]; simp [List.append_assoc]⟩

theorem isInfix_of_suffix_append {α : Type} {p₁ L X rest : List α} (h : p₁ <:+ L) :
    (p₁ ++ X) <:+: L ++ (X ++ rest) := by
  obtain ⟨u, hu⟩ := h
  exact ⟨u, rest, by rw [← hu]; simp [List.append_assoc]⟩

theorem noOcc_pyJoin_comma {p : List Char} (hne : p ≠ []) (hcomma : ',' ∉ p)
    (l : List String) (h : ∀ x ∈ l, ¬ p <:+: x.data) : ¬ p <:+: (pyJoin "," l).data := by
  induction l with
  | nil =>
    intro hp
    exact hne (List.eq_nil_of_sublist_nil hp.sublist)
  | cons x xs ih =>
    cases xs with
    | nil => exact h x (List.mem_cons_self x [])
    | cons y ys =>
      rw [pyJoin]
      have hcd : ¬ p <:+: ("," : String).data :=
        not_isInfix_of_disjoint hne (fun c hc hm => by
          simp only [List.mem_singleton] at hm
          exact hcomma (hm ▸ hc))
      apply noOcc_app_last
      · apply noOcc_app_head (h x (List.mem_cons_self x _)) hcd
        intro c hc
        simp only [List.head?] at hc
        injection hc with hc
        subst hc
        exact hcomma
      · exact ih (fun z hz => h z (List.mem_cons_of_mem x hz))
      · intro c hc
        rw [lastData_app x "," (by decide)] at hc
        simp only [List.getLast?] at hc
        injection hc with hc
        subst hc
        exact hcomma

/-! ## Claim C2 — type mapper (code bug: silent `None` instead of an error) -/

/-- C2: for every supported OData primitive source type the mapper returns
the documented warehouse type, but for a source type outside the supported
enumeration (`Edm.Stream` here) `data_type_mapping.get` yields `None` and
`process_metadata` succeeds with a `None`-typed field — it does not fail
with an `UnsupportedTypeError` as the claim states.  The final conjunct
evaluates the parser at the failing input. -/
theorem c2_type_mapping_silent_none :
    (data_type_mapping "Edm.Binary" = some "BYTES" ∧
     data_type_mapping "Edm.Boolean" = some "BOOL" ∧
     data_type_mapping "Edm.DateTime" = some "DATETIME" ∧
     data_type_mapping "Edm.Time" = some "TIMESTAMP" ∧
     data_type_mapping "Edm.Int64" = some "INTEGER" ∧
     data_type_mapping "Edm.Decimal" = some "DECIMAL" ∧
     data_type_mapping "Edm.Double" = some "FLOAT64" ∧
     data_type_mapping "Edm.Float" = some "FLOAT64" ∧
     data_type_mapping "Edm.Single" = some "FLOAT64" ∧
     data_type_mapping "Edm.Int32" = some "INTEGER" ∧
     data_type_mapping "Edm.Byte" = some "INTEGER" ∧
     data_type_mapping "Edm.Int16" = some "INTEGER" ∧
     data_type_mapping "Edm.SByte" = some "INTEGER" ∧
     data_type_mapping "Edm.DateTimeOffset" = some "TIMESTAMP" ∧
     data_type_mapping "Edm.Guid" = some "STRING" ∧
     data_type_mapping "Edm.String" = some "STRING") ∧
    data_type_mapping "Edm.Stream" = none ∧
    process_metadata docC2 =
      .ok { name := "Position"
            keys := ["code"]
            fields := [{ name := "code", type := some "STRING", mode := "NOT NULL",
                         description := "Code." },
                       { name := "payload", type := none, mode := "",
                         description := "Payload." }]
            module := "Employee Central (EC)"
            description := "Positions" } := by
  refine ⟨⟨rfl, rfl, rfl, rfl, rfl, rfl, rfl, rfl, rfl, rfl, rfl, rfl, rfl, rfl, rfl, rfl⟩,
    rfl, rfl⟩

/-! ## Claim C4 — Key/PropertyRef single-vs-list normalization -/

/-- C4: whatever shape `xmltodict` produced for `Key/PropertyRef`, the parsed
descriptor's `keys` list is the normalized projection: a single node yields
the one-element list of its `@Name`, a list of nodes yields their `@Name`s
in order. -/
theorem c4_keys_normalized (doc : MetadataDoc) (d : EntityDict)
    (h : process_metadata doc = .ok d) :
    (∀ pr, doc.propertyRef = .dict pr → d.keys = [pr.name]) ∧
    (∀ prs, doc.propertyRef = .list prs → d.keys = prs.map PropertyRefNode.name) := by
  have hk : d.keys = extract_keys doc.propertyRef := by
    unfold process_metadata at h
    cases hm : extract_module doc.tags with
    | error e => rw [hm] at h; exact absurd h (by simp)
    | ok m =>
      rw [hm] at h
      rw [← Except.ok.inj h]
  exact ⟨fun pr hpr => by rw [hk, hpr]; rfl,
         fun prs hprs => by rw [hk, hprs]; rfl⟩

/-- C4 witness: the two-key document yields both names in order, the
single-key document yields a one-element list. -/
theorem c4_keys_normalized_witness :
    entC4.keys = ["personIdExternal", "seqNumber"] ∧ entC4single.keys = ["code"] := by
  constructor
  · have h := (c4_keys_normalized docC4 entC4 rfl).2
      [{ name := "personIdExternal" }, { name := "seqNumber" }] rfl
    simpa using h
  · have h := (c4_keys_normalized docC4single entC4single rfl).1 { name := "code" } rfl
    simpa using h

/-! ## Claim C6 — module extraction from the tag collection -/

/-- C6: a list-shaped tag collection yields its first element as the module,
a string-shaped one yields the string itself, and any other shape makes the
parser fail (the source raises the generic `Exception` of `ingest.py` line
131, which the spec names `ModuleNotFoundError`). -/
theorem c6_module_extraction (doc : MetadataDoc) :
    (∀ m rest, doc.tags = .strs (m :: rest) →
      ∃ d, process_metadata doc = .ok d ∧ d.module = m) ∧
    (∀ s, doc.tags = .str s → ∃ d, process_metadata doc = .ok d ∧ d.module = s) ∧
    (doc.tags = .other →
      process_metadata doc =
        .error (.exception "Could not extract SSFF module name from the metadata")) := by
  refine ⟨?_, ?_, ?_⟩
  · intro m rest ht
    unfold process_metadata
    rw [ht]
    exact ⟨_, rfl, rfl⟩
  · intro s ht
    unfold process_metadata
    rw [ht]
    exact ⟨_, rfl, rfl⟩
  · intro ht
    unfold process_metadata
    rw [ht]
    rfl

/-- C6 witness: the list-shaped document takes the first tag, the `other`
document fails with the line-131 exception. -/
theorem c6_module_extraction_witness :
    (∃ d, process_metadata docC6list = .ok d ∧ d.module = "Platform (PLT)") ∧
    process_metadata docC6other =
      .error (.exception "Could not extract SSFF module name from the metadata") :=
  ⟨(c6_module_extraction docC6list).1 "Platform (PLT)" ["Core"] rfl,
   (c6_module_extraction docC6other).2.2 rfl⟩

/-! ## Claim C10 — `get_entity_count` control flow -/

/-- C10: the count endpoint's body yields a returned value exactly when it
parses as a Python integer (and then the returned value is that integer);
any other body makes the function raise `UnboundLocalError` at its `return`
statement instead of returning a default. -/
theorem c10_count_parse (body : String) :
    (∀ n : Int, get_entity_count body = .ok n ↔ pyIntParse body = some n) ∧
    (pyIntParse body = none →
      get_entity_count body = .error (.unboundLocalError "count")) := by
  cases h : pyIntParse body with
  | some m =>
    exact ⟨fun n => by simp [get_entity_count, h], fun hn => absurd hn (by simp)⟩
  | none =>
    exact ⟨fun n => by simp [get_entity_count, h], fun _ => by simp [get_entity_count, h]⟩

/-- C10 witness: a non-integer body raises at `return`, an integer body
(with surrounding whitespace) returns exactly the parsed value. -/
theorem c10_count_parse_witness :
    get_entity_count "12a" = .error (.unboundLocalError "count") ∧
    get_entity_count " 123 " = .ok 123 :=
  ⟨(c10_count_parse "12a").2 (by decide), ((c10_count_parse " 123 ").1 123).2 (by decide)⟩

/-! ## Claim C9 — pagination termination -/

/-- C9: along any finite page sequence containing a page without `__next`,
the loop stores every page's results once, in order, up to and including the
first page lacking `__next`, and stops there: the stored payloads are
exactly the results of the first `k + 1` pages, where page `k` is the first
one without a continuation URL. -/
theorem c9_pagination_stops (pages : List ODataPage)
    (h : ∃ p ∈ pages, p.next = none) :
    ∃ k, ∃ hk : k < pages.length,
      (pages.get ⟨k, hk⟩).next = none ∧
      (∀ i, ∀ hi : i < k, (pages.get ⟨i, by omega⟩).next ≠ none) ∧
      get_entity_data_stored pages = (pages.take (k + 1)).map ODataPage.results := by
  induction pages with
  | nil =>
    obtain ⟨p, hp, _⟩ := h
    exact absurd hp (List.not_mem_nil p)
  | cons q rest ih =>
    by_cases hq : q.next = none
    · refine ⟨0, by simp, hq, fun i hi => by omega, ?_⟩
      simp [get_entity_data_stored, get_next_page_url, hq]
    · have h' : ∃ p ∈ rest, p.next = none := by
        obtain ⟨p, hp, hpn⟩ := h
        rcases List.mem_cons.1 hp with he | hm
        · exact absurd (he ▸ hpn) hq
        · exact ⟨p, hm, hpn⟩
      obtain ⟨k, hk, hnone, hbefore, hstored⟩ := ih h'
      refine ⟨k + 1, by simpa using Nat.succ_lt_succ hk, by simpa using hnone, ?_, ?_⟩
      · intro i hi
        cases i with
        | zero => simpa using hq
        | succ j => simpa using hbefore j (by omega)
      · obtain ⟨u, hu⟩ := Option.ne_none_iff_exists'.1 hq
        simp [get_entity_data_stored, get_next_page_url, hu, hstored]

/-- C9 witness: on the concrete four-page sequence the loop stores the first
three pages' results and never requests the page behind the stale link. -/
theorem c9_pagination_stops_witness :
    get_entity_data_stored pagesC9 = [["r0a", "r0b"], ["r1a"], ["r2a", "r2b"]] := by
  obtain ⟨k, hk, hnone, hbefore, hstored⟩ :=
    c9_pagination_stops pagesC9 ⟨{ results := ["r2a", "r2b"], next := none }, by decide, rfl⟩
  have hk4 : k < 4 := by simpa [pagesC9] using hk
  have hk2 : k = 2 := by
    interval_cases k
    · simp [pagesC9] at hnone
    · simp [pagesC9] at hnone
    · rfl
    · have h2 := hbefore 2 (by omega)
      simp [pagesC9] at h2
  rw [hstored, hk2]
  decide

/-! ## Claim C8 — the descriptor is mutated in place (claim corrected) -/

/-- C8 counterexample: `create_bq_raw_table` runs `field.update({'type':
'STRING'})` on the descriptor's own field dicts, so after the staging-table
synthesis the original descriptor's DATETIME field reads STRING — its field
types are not left unchanged for later consumers. -/
theorem c8_descriptor_mutated_ce :
    mdC8.fields.map EntityField.type = [some "STRING", some "DATETIME", some "BOOL"] ∧
    (create_bq_raw_table_update mdC8).fields.map EntityField.type =
      [some "STRING", some "STRING", some "BOOL"] ∧
    (create_bq_raw_table_update mdC8).fields ≠ mdC8.fields := by
  exact ⟨rfl, rfl, by decide⟩

/-- C8 amended: the staging-table synthesis widens the descriptor's field
types in place — afterwards every field whose type was not BOOL (including
unmapped `None` types) holds STRING and BOOL fields keep BOOL — while field
names, modes, descriptions and the descriptor's other components are
unchanged.  Consumers running after `create_bq_raw_table` observe the
widened types. -/
theorem c8_raw_widening (md : EntityDict) :
    (create_bq_raw_table_update md).name = md.name ∧
    (create_bq_raw_table_update md).keys = md.keys ∧
    (create_bq_raw_table_update md).module = md.module ∧
    (create_bq_raw_table_update md).description = md.description ∧
    ∃ h : (create_bq_raw_table_update md).fields.length = md.fields.length,
      ∀ i, ∀ hi : i < md.fields.length,
        ((create_bq_raw_table_update md).fields.get ⟨i, by omega⟩).name =
            (md.fields.get ⟨i, hi⟩).name ∧
        ((create_bq_raw_table_update md).fields.get ⟨i, by omega⟩).mode =
            (md.fields.get ⟨i, hi⟩).mode ∧
        ((create_bq_raw_table_update md).fields.get ⟨i, by omega⟩).description =
            (md.fields.get ⟨i, hi⟩).description ∧
        ((create_bq_raw_table_update md).fields.get ⟨i, by omega⟩).type =
          (if (md.fields.get ⟨i, hi⟩).type = some "BOOL" then some "BOOL"
           else some "STRING") := by
  refine ⟨rfl, rfl, rfl, rfl, by simp [create_bq_raw_table_update], ?_⟩
  intro i hi
  simp only [create_bq_raw_table_update, List.get_eq_getElem, List.getElem_map]
  by_cases hb : md.fields[i].type = some "BOOL" <;> simp [hb]

/-- C8 amended-theorem witness: at the concrete descriptor the widened
DATETIME field reads STRING after the in-place update. -/
theorem c8_raw_widening_witness :
    ((create_bq_raw_table_update mdC8).fields.get ⟨1, by decide⟩).type = some "STRING" := by
  obtain ⟨_, _, _, _, _, hfields⟩ := c8_raw_widening mdC8
  exact ((hfields 1 (by decide)).2.2.2).trans (by decide)

/-! ## Lemmas bridging `pyJoin` to the spec-side join forms -/

theorem pyJoin_srcTarget_eq_spec (keys : List String) :
    pyJoin " AND " (keys.map fun key => "source." ++ key ++ "=target." ++ key) =
      join_cond_spec keys := by
  induction keys with
  | nil => rfl
  | cons k rest ih =>
    cases rest with
    | nil => rfl
    | cons k' rest' =>
      simp only [List.map_cons] at ih ⊢
      rw [pyJoin, join_cond_spec, ← ih]

theorem pyJoin_cols_eq_spec (names : List String) :
    pyJoin ", " names = insert_cols_spec names := by
  induction names with
  | nil => rfl
  | cons x rest ih =>
    cases rest with
    | nil => rfl
    | cons y ys => rw [pyJoin, insert_cols_spec, ← ih]

/-! ## Claim C1 — `WHEN MATCHED` update list (claim corrected) -/

/-- C1 counterexample: for the descriptor `mdC1` with key `id` among its
fields, the key's update entry `target.id=source.id` is in the UPDATE SET
list, so the claim's "no key field appears there" fails on the code. -/
theorem c1_update_set_keys_ce :
    "id" ∈ mdC1.keys ∧ "target.id=source.id" ∈ merge_update_set_entries mdC1 := by
  decide

/-- C1 amended: the `WHEN MATCHED` action updates all declared columns, key
fields included — the UPDATE SET list has one entry
`target.<name>=source.<name>` per declared field, in declared order, and the
MERGE statement embeds that list between `SET` and
`WHEN NOT MATCHED BY TARGET`. -/
theorem c1_update_set_all_columns (md : EntityDict) (raw_table_id rf_table_id : String) :
    (∃ h : (merge_update_set_entries md).length = md.fields.length,
      ∀ i, ∀ hi : i < md.fields.length,
        (merge_update_set_entries md).get ⟨i, by omega⟩ =
          "target." ++ (md.fields.get ⟨i, hi⟩).name ++ "=source." ++
            (md.fields.get ⟨i, hi⟩).name) ∧
    ∃ A B, create_merge_query md raw_table_id rf_table_id =
      A ++ "SET\n    " ++ pyJoin ", " (merge_update_set_entries md) ++
        "\n    WHEN NOT MATCHED BY TARGET" ++ B := by
  constructor
  · refine ⟨by simp [merge_update_set_entries, merge_column_names], ?_⟩
    intro i hi
    simp [merge_update_set_entries, merge_column_names]
  · refine ⟨"\n    MERGE INTO\n    " ++ rf_table_id ++
      " AS target\n    USING(\n    SELECT\n    " ++ pyJoin ", " (merge_column_names md) ++
      "\n    FROM " ++ raw_table_id ++
      "\n    WHERE TIMESTAMP_TRUNC(_PARTITIONTIME, DAY) = TIMESTAMP(FORMAT_DATE(\"%Y-%m-%d\",CURRENT_DATE()))\n    ) AS source\n    ON " ++
      merge_condition md ++ "\n    WHEN MATCHED\n    THEN UPDATE\n    ",
      "\n    THEN INSERT(\n    " ++ pyJoin ", " (merge_column_names md) ++
      "\n    )\n    VALUES(\n    " ++ pyJoin ", " (merge_column_names md) ++ "\n    );\n    ", ?_⟩
    have h1 : ("\n    WHEN MATCHED\n    THEN UPDATE\n    SET\n    " : String) =
        "\n    WHEN MATCHED\n    THEN UPDATE\n    " ++ "SET\n    " := by decide
    have h2 : ("\n    WHEN NOT MATCHED BY TARGET\n    THEN INSERT(\n    " : String) =
        "\n    WHEN NOT MATCHED BY TARGET" ++ "\n    THEN INSERT(\n    " := by decide
    simp only [create_merge_query]
    rw [h1, h2]
    simp only [String.append_assoc]

/-- C1 witness: at the concrete descriptor the UPDATE SET list covers both
declared fields and its first entry is the key's own update entry. -/
theorem c1_update_set_all_columns_witness :
    (merge_update_set_entries mdC1).length = mdC1.fields.length ∧
    (merge_update_set_entries mdC1).get ⟨0, by decide⟩ = "target.id=source.id" := by
  obtain ⟨⟨hlen, hget⟩, _⟩ := c1_update_set_all_columns mdC1 "pj.ds.final" "pj.ds.rf"
  exact ⟨hlen, (hget 0 (by decide)).trans (by decide)⟩

/-! ## Claim C7 — merge join condition and not-matched insert -/

/-- C7: for every descriptor with non-empty keys the merge statement's join
condition is the AND-conjunction of `source.<key>=target.<key>` over the
declared keys in order (`join_cond_spec` follows the spec wording), and the
`WHEN NOT MATCHED BY TARGET` branch inserts all declared columns
(`insert_cols_spec` of every field name, in order, both in the INSERT column
list and in VALUES). -/
theorem c7_merge_join_and_insert (md : EntityDict) (raw_table_id rf_table_id : String)
    (hkeys : md.keys ≠ []) :
    merge_condition md = join_cond_spec md.keys ∧
    ∃ A, create_merge_query md raw_table_id rf_table_id =
      A ++ "\n    ) AS source\n    ON " ++ join_cond_spec md.keys ++
        "\n    WHEN MATCHED\n    THEN UPDATE\n    SET\n    " ++
        pyJoin ", " (merge_update_set_entries md) ++
        "\n    WHEN NOT MATCHED BY TARGET\n    THEN INSERT(\n    " ++
        insert_cols_spec (md.fields.map EntityField.name) ++
        "\n    )\n    VALUES(\n    " ++
        insert_cols_spec (md.fields.map EntityField.name) ++ "\n    );\n    " := by
  have hcond : merge_condition md = join_cond_spec md.keys := by
    unfold merge_condition
    exact pyJoin_srcTarget_eq_spec md.keys
  refine ⟨hcond, ?_⟩
  refine ⟨"\n    MERGE INTO\n    " ++ rf_table_id ++
    " AS target\n    USING(\n    SELECT\n    " ++ pyJoin ", " (merge_column_names md) ++
    "\n    FROM " ++ raw_table_id ++
    "\n    WHERE TIMESTAMP_TRUNC(_PARTITIONTIME, DAY) = TIMESTAMP(FORMAT_DATE(\"%Y-%m-%d\",CURRENT_DATE()))", ?_⟩
  have h1 : ("\n    WHERE TIMESTAMP_TRUNC(_PARTITIONTIME, DAY) = TIMESTAMP(FORMAT_DATE(\"%Y-%m-%d\",CURRENT_DATE()))\n    ) AS source\n    ON " : String) =
      "\n    WHERE TIMESTAMP_TRUNC(_PARTITIONTIME, DAY) = TIMESTAMP(FORMAT_DATE(\"%Y-%m-%d\",CURRENT_DATE()))" ++
        "\n    ) AS source\n    ON " := by decide
  simp only [create_merge_query]
  rw [h1, hcond, pyJoin_cols_eq_spec (merge_column_names md)]
  simp only [merge_column_names, String.append_assoc]

/-- C7 witness: for keys `[id, effectiveDate]` the join condition is exactly
`source.id=target.id AND source.effectiveDate=target.effectiveDate`. -/
theorem c7_merge_join_and_insert_witness :
    merge_condition mdC7 =
      "source.id=target.id AND source.effectiveDate=target.effectiveDate" := by
  have h := (c7_merge_join_and_insert mdC7 "pj.ds.tmp" "pj.ds.rf" (by decide)).1
  rw [h]
  decide

/-! ## Claim C3 — type-cast SELECT synthesis (code bug in the BYTES row) -/

/-- C3: evaluated at the failing input (`fmtC3`/`rawC3`, same column names,
column `b` typed BYTES in the final schema).  The loop does give every
column exactly one expression in declared order, and the INTEGER column
(no entry in the conversion table) falls through to the generic cast rather
than erroring; but the BYTES column's expression is the nested
`SELECT CAST(cast(...) AS BYTES) AS STRING)` form with no `AS b` alias, so
the claim's "every column ... aliased back to its own name" fails on the
code (the spec itself flags this expression as a defect, §9). -/
theorem c3_bytes_expr_not_aliased :
    select_lines fmtC3 rawC3 =
      ["\t" ++ select_expr fmtC3 "b", "\t" ++ select_expr fmtC3 "n",
       "\t" ++ select_expr fmtC3 "s"] ∧
    select_expr fmtC3 "b" =
      "SELECT CAST(cast(REGEXP_EXTRACT(b, r\"[X|binary]\x27([A-Fa-f0-9][A-Fa-f0-9]*)\x27\") AS BYTES) AS STRING)" ∧
    select_expr fmtC3 "n" = "CAST(n AS INTEGER) AS n" ∧
    select_expr fmtC3 "s" = "s" ∧
    aliased_to_self (select_expr fmtC3 "n") "n" = true ∧
    aliased_to_self (select_expr fmtC3 "s") "s" = true ∧
    aliased_to_self (select_expr fmtC3 "b") "b" = false := by
  refine ⟨rfl, rfl, rfl, rfl, ?_, ?_, ?_⟩ <;> decide

/-! ## Support lemmas for the DDL-shape claim -/

theorem toLower_ne_P (c : Char) : c.toLower ≠ 'P' := by
  intro h
  unfold Char.toLower at h
  simp only [ge_iff_le] at h
  split at h
  · next hcond =>
    obtain ⟨h1, h2⟩ := hcond
    generalize hgen : c.toNat = n at h h1 h2
    interval_cases n <;> exact absurd h (by decide)
  · next hcond =>
    subst h
    exact hcond ⟨by decide, by decide⟩

theorem pyStripList_sublist (l : List Char) : (pyStripList l).Sublist l := by
  unfold pyStripList
  have h1 : (l.dropWhile pyIsSpace).Sublist l := (List.dropWhile_suffix pyIsSpace).sublist
  have h2 : (((l.dropWhile pyIsSpace).reverse.dropWhile pyIsSpace).reverse).Sublist
      (l.dropWhile pyIsSpace) := by
    have := (List.dropWhile_suffix (l := (l.dropWhile pyIsSpace).reverse) pyIsSpace).sublist
    have hrev := this.reverse
    simpa using hrev
  exact h2.trans h1

/-- the lowered-and-stripped `dataset_module` can never contain the
upper-case token `PARTITION`, whatever the module tag is. -/
theorem no_partition_in_lower_strip (x : String) :
    ¬ ("PARTITION".data <:+: (pyStrip (pyLower x)).data) := by
  intro h
  have hP : 'P' ∈ (pyStrip (pyLower x)).data :=
    h.sublist.subset (by decide : 'P' ∈ "PARTITION".data)
  have hP2 : 'P' ∈ (pyLower x).data := (pyStripList_sublist (pyLower x).data).subset hP
  have hmap : (pyLower x).data = x.data.map Char.toLower := rfl
  rw [hmap] at hP2
  obtain ⟨c, _, hc⟩ := List.mem_map.1 hP2
  exact toLower_ne_P c hc

theorem boundary_notMem {p : List Char} {o : Option Char} (c₀ : Char)
    (ho : o = some c₀) (hc₀ : c₀ ∉ p) : ∀ c, o = some c → c ∉ p := by
  intro c hc
  rw [ho] at hc
  injection hc with hc
  exact hc ▸ hc₀

theorem mapM_field_col_mem {fields : List EntityField} {cols : List String}
    (h : fields.mapM field_column_sql = .ok cols) :
    ∀ c ∈ cols, ∃ f ∈ fields, field_column_sql f = .ok c := by
  induction fields generalizing cols with
  | nil =>
    simp only [List.mapM_nil, pure] at h
    cases h
    intro c hc
    exact absurd hc (List.not_mem_nil c)
  | cons f fs ih =>
    rw [List.mapM_cons] at h
    cases hf : field_column_sql f with
    | error e =>
      rw [hf] at h
      simp only [bind, Except.bind] at h
      exact absurd h (by simp)
    | ok y =>
      rw [hf] at h
      simp only [bind, Except.bind] at h
      cases hfs : fs.mapM field_column_sql with
      | error e =>
        rw [hfs] at h
        exact absurd h (by simp)
      | ok ys =>
        rw [hfs] at h
        simp only [pure, Except.pure] at h
        cases h
        intro c hc
        rcases List.mem_cons.1 hc with hcy | hcys
        · exact ⟨f, List.mem_cons_self f fs, hcy ▸ hf⟩
        · obtain ⟨f', hf'm, hf'⟩ := ih hfs c hcys
          exact ⟨f', List.mem_cons_of_mem f hf'm, hf'⟩

/-- a synthesized column definition contains no `PARTITION` token when none
of the field's strings does: every template boundary character (space,
apostrophe, parenthesis) is foreign to the token. -/
theorem noP_field_col {f : EntityField} {c : String}
    (hf : field_column_sql f = .ok c)
    (h1 : ¬ ("PARTITION".data <:+: f.name.data))
    (h2 : ∀ t, f.type = some t → ¬ ("PARTITION".data <:+: t.data))
    (h3 : ¬ ("PARTITION".data <:+: f.mode.data))
    (h4 : ¬ ("PARTITION".data <:+: f.description.data)) :
    ¬ ("PARTITION".data <:+: c.data) := by
  cases ht : f.type with
  | none => rw [field_column_sql, ht] at hf; exact absurd hf (by simp)
  | some t =>
    rw [field_column_sql, ht] at hf
    have hc := Except.ok.inj hf
    subst hc
    apply noOcc_app_head
    · apply noOcc_app_last
      · apply noOcc_app_last
        · apply noOcc_app_head
          · apply noOcc_app_last
            · apply noOcc_app_head
              · apply noOcc_app_last
                · apply noOcc_app_head h1 (by decide)
                  exact boundary_notMem ' ' rfl (by decide)
                · exact h2 t ht
                · exact boundary_notMem ' '
                    (by rw [lastData_app _ _ (by decide)]; decide) (by decide)
              · exact (by decide : ¬ ("PARTITION".data <:+: (" " : String).data))
              · exact boundary_notMem ' ' rfl (by decide)
            · exact h3
            · exact boundary_notMem ' '
                (by rw [lastData_app _ _ (by decide)]; decide) (by decide)
          · exact (by decide : ¬ ("PARTITION".data <:+: (" " : String).data))
          · exact boundary_notMem ' ' rfl (by decide)
        · exact (by decide :
            ¬ ("PARTITION".data <:+: ("OPTIONS(description=\x27" : String).data))
        · exact boundary_notMem ' '
            (by rw [lastData_app _ _ (by decide)]; decide) (by decide)
      · exact h4
      · exact boundary_notMem '\x27'
          (by rw [lastData_app _ _ (by decide)]; decide) (by decide)
    · exact (by decide : ¬ ("PARTITION".data <:+: ("\x27)" : String).data))
    · exact boundary_notMem '\x27' rfl (by decide)

/-! ## Claim C5 — partition and clustering clauses of the synthesized DDL -/

/-- C5: whenever the two synthesizers succeed, the final-table DDL contains
the ingestion-day partition clause and a clustering clause listing all keys
in declared order, and the refined-table DDL contains the same clustering
clause but — for any descriptor whose strings do not themselves smuggle the
token `PARTITION` — no occurrence of `PARTITION` at all, hence no partition
clause. -/
theorem c5_partition_and_clustering (project rf_project : String) (md : EntityDict)
    (s₁ s₂ : String)
    (h₁ : create_bq_final_table_ddl project md = .ok s₁)
    (h₂ : create_bq_refined_table_ddl rf_project md = .ok s₂) :
    ("PARTITION BY DATE_TRUNC(_PARTITIONTIME, DAY)".data <:+: s₁.data) ∧
    (("CLUSTER BY " ++ pyJoin "," md.keys).data <:+: s₁.data) ∧
    (("CLUSTER BY " ++ pyJoin "," md.keys).data <:+: s₂.data) ∧
    (clean_descriptor rf_project md → ¬ ("PARTITION".data <:+: s₂.data)) := by
  cases hc : md.fields.mapM field_column_sql with
  | error e =>
    unfold create_bq_final_table_ddl at h₁
    rw [hc] at h₁
    exact absurd h₁ (by simp)
  | ok cols =>
    unfold create_bq_final_table_ddl at h₁
    unfold create_bq_refined_table_ddl at h₂
    rw [hc] at h₁ h₂
    simp only [Except.ok.injEq] at h₁ h₂
    subst h₁
    subst h₂
    refine ⟨?_, ?_, ?_, ?_⟩
    · simp only [String.data_append, List.append_assoc]
      apply isInfix_app_right
      apply isInfix_app_right
      apply isInfix_app_right
      apply isInfix_app_right
      apply isInfix_app_right
      apply isInfix_app_right
      exact isInfix_app_left (by decide) _
    · simp only [String.data_append, List.append_assoc]
      apply isInfix_app_right
      apply isInfix_app_right
      apply isInfix_app_right
      apply isInfix_app_right
      apply isInfix_app_right
      apply isInfix_app_right
      exact isInfix_of_suffix_append (by decide)
    · simp only [String.data_append, List.append_assoc]
      apply isInfix_app_right
      apply isInfix_app_right
      apply isInfix_app_right
      apply isInfix_app_right
      apply isInfix_app_right
      apply isInfix_app_right
      exact isInfix_of_suffix_append (by decide)
    · intro hclean
      obtain ⟨hproj, hname, hdesc, hkeys, hfields⟩ := hclean
      apply noOcc_app_head
      · apply noOcc_app_last
        · apply noOcc_app_head
          · apply noOcc_app_last
            · apply noOcc_app_head
              · apply noOcc_app_last
                · apply noOcc_app_head
                  · apply noOcc_app_last
                    · decide
                    · apply noOcc_app_last
                      · apply noOcc_app_head
                        · unfold dataset_id_of
                          apply noOcc_app_last
                          · apply noOcc_app_head hproj (by decide)
                            exact boundary_notMem '.' rfl (by decide)
                          · unfold dataset_module_of
                            exact no_partition_in_lower_strip _
                          · exact boundary_notMem '_'
                              (by rw [lastData_app _ _ (by decide)]; decide) (by decide)
                        · decide
                        · exact boundary_notMem '.' rfl (by decide)
                      · exact hname
                      · exact boundary_notMem '.'
                          (by rw [lastData_app _ _ (by decide)]; decide) (by decide)
                    · exact boundary_notMem ' ' (by decide) (by decide)
                  · decide
                  · exact boundary_notMem '(' rfl (by decide)
                · apply noOcc_pyJoin_comma (by decide) (by decide)
                  intro x hx
                  obtain ⟨f, hfm, hfc⟩ := mapM_field_col_mem hc x hx
                  obtain ⟨hn, hm, hd, htc⟩ := hfields f hfm
                  exact noP_field_col hfc hn
                    (fun t htt => by rw [htt] at htc; exact htc) hm hd
                · exact boundary_notMem ' '
                    (by rw [lastData_app _ _ (by decide)]; decide) (by decide)
              · decide
              · exact boundary_notMem '\n' rfl (by decide)
            · apply noOcc_pyJoin_comma (by decide) (by decide)
              intro x hx
              exact hkeys x hx
            · exact boundary_notMem ' '
                (by rw [lastData_app _ _ (by decide)]; decide) (by decide)
          · decide
          · exact boundary_notMem '\n' rfl (by decide)
        · exact hdesc
        · exact boundary_notMem '\x27'
            (by rw [lastData_app _ _ (by decide)]; decide) (by decide)
      · decide
      · exact boundary_notMem '\x27' rfl (by decide)

/-- C5 witness: the concrete clean descriptor's final DDL carries the
partition clause and the refined DDL carries the clustering clause but no
`PARTITION` token. -/
theorem c5_partition_and_clustering_witness :
    create_bq_final_table_ddl "pj" mdC5 = .ok c5_final_str ∧
    create_bq_refined_table_ddl "rf-pj" mdC5 = .ok c5_refined_str ∧
    ("PARTITION BY DATE_TRUNC(_PARTITIONTIME, DAY)".data <:+: c5_final_str.data) ∧
    (("CLUSTER BY " ++ pyJoin "," mdC5.keys).data <:+: c5_refined_str.data) ∧
    ¬ ("PARTITION".data <:+: c5_refined_str.data) := by
  have h := c5_partition_and_clustering "pj" "rf-pj" mdC5 c5_final_str c5_refined_str rfl rfl
  exact ⟨rfl, rfl, h.1, h.2.2.1, h.2.2.2 (by decide)⟩

/-! ## Template-inlining validation

These theorems evaluate `pySubst` (the model of `str.format`) on the
verbatim templates and check the synthesis functions' inlined concatenations
against it. -/

set_option maxRecDepth 16384 in
theorem conv_subst_check :
    ((data_type_conversion_mapping "STRING").map fun tmpl =>
        pySubst tmpl "{field_name}" "col") =
      some (select_expr [{ name := "col", field_type := "STRING" }] "col") ∧
    ((data_type_conversion_mapping "DATETIME").map fun tmpl =>
        pySubst tmpl "{field_name}" "col") =
      some (select_expr [{ name := "col", field_type := "DATETIME" }] "col") ∧
    ((data_type_conversion_mapping "TIMESTAMP").map fun tmpl =>
        pySubst tmpl "{field_name}" "col") =
      some (select_expr [{ name := "col", field_type := "TIMESTAMP" }] "col") ∧
    ((data_type_conversion_mapping "FLOAT").map fun tmpl =>
        pySubst tmpl "{field_name}" "col") =
      some (select_expr [{ name := "col", field_type := "FLOAT" }] "col") ∧
    ((data_type_conversion_mapping "BYTES").map fun tmpl =>
        pySubst tmpl "{field_name}" "col") =
      some (select_expr [{ name := "col", field_type := "BYTES" }] "col") ∧
    pySubst (pySubst default_conversion_expr "{field_name}" "col")
        "{default_type}" "INTEGER" =
      select_expr [{ name := "col", field_type := "INTEGER" }] "col" := by
  decide

set_option maxRecDepth 32768 in
theorem merge_template_format_check :
    pySubst (pySubst (pySubst (pySubst (pySubst merge_base_query
          "{rf_table_id}" "pj.ds.rf")
          "{raw_table_id}" "pj.ds.fin")
          "{columns}" (pyJoin ", " (merge_column_names mdC1)))
          "{condition}" (merge_condition mdC1))
          "{column_mapping}" (pyJoin ", " (merge_update_set_entries mdC1)) =
      create_merge_query mdC1 "pj.ds.fin" "pj.ds.rf" := by
  decide

set_option maxRecDepth 32768 in
theorem insert_template_format_check :
    pySubst (pySubst (pySubst (pySubst insert_base_query
          "{target_table}" "pj.ds.final")
          "{target_columns}" (pyJoin ",\n" (rawC3.map SchemaField.name)))
          "{select_statement}" (pyJoin ",\n" (select_lines fmtC3 rawC3)))
          "{source_table}" "pj.ds.temp" =
      insert_raw_into_final_query "pj.ds.final" "pj.ds.temp" fmtC3 rawC3 := by
  decide

end SSFF
